import Mathlib

/-!
Shallow embedding of `src/crewai/anythingllm-skill/handler.js`, the
AnythingLLM custom agent skill that forwards a research request to a
CrewAI service over HTTP.

The handler is an async JS function.  We model:
  * JSON values (`Json`) as produced by the platform's `JSON.parse`;
  * the host-provided configuration `this.runtimeArgs` (`RuntimeArgs`),
    with JS falsy-or semantics for `x || default` (absent, undefined and
    the empty string all fall back to the default);
  * the side effects as an ordered event trace (`Event`): each
    `this.introspect(msg)` call and the single `fetch` call, in program
    order;
  * the outcome of the `fetch` promise (`FetchResult`): either a
    rejection (timeout / unreachable host, carrying the error message)
    or an HTTP `Response` whose body can be read as text and whose
    `.json()` either parses to a `Json` value or rejects with a parse
    error message;
  * JS exceptions inside the `try` block as `Except JsError`; the
    surrounding `catch` converts them to a returned string.  The injected
    `introspect` callback is modelled as never throwing (it only appends
    to the trace), matching the host contract.
The handler itself returns `Except JsError (Option Json) × List Event`:
the first component is the function's result (`.error` would be an
exception escaping the handler, `.ok none` is JS `undefined`), the second
the event trace.
-/

/-- JSON values as produced by `JSON.parse`. -/
inductive Json where
  | null : Json
  | bool (b : Bool) : Json
  | num (n : Int) : Json
  | str (s : String) : Json
  | arr (elems : List Json) : Json
  | obj (fields : List (String × Json)) : Json

/-- JS property access `v.key` on a parsed JSON value: a lookup on an
object, `undefined` (here `none`) on anything else or a missing key. -/
def jsGet : Json → String → Option Json
  | Json.obj fields, key => List.lookup key fields
  | _, _ => none

mutual
/-- JS `String(v)` / template-literal conversion of a JSON value. -/
def jsStringOf : Json → String
  | Json.null => "null"
  | Json.bool b => cond b "true" "false"
  | Json.num n => toString n
  | Json.str s => s
  | Json.obj _ => "[object Object]"
  | Json.arr elems => jsArrJoin elems

/-- JS `Array.prototype.toString`: elements joined by a comma. -/
def jsArrJoin : List Json → String
  | [] => ""
  | [e] => jsElem e
  | e :: rest => jsElem e ++ "," ++ jsArrJoin rest

/-- How `join` renders one array element: `null`/`undefined` become the
empty string, everything else is converted with `String(v)`. -/
def jsElem : Json → String
  | Json.null => ""
  | Json.bool b => cond b "true" "false"
  | Json.num n => toString n
  | Json.str s => s
  | Json.obj _ => "[object Object]"
  | Json.arr elems => jsArrJoin elems
end

/-- JS `arr.join(sep)`. -/
def jsJoinWith (sep : String) : List Json → String
  | [] => ""
  | [e] => jsElem e
  | e :: rest => jsElem e ++ sep ++ jsJoinWith sep rest

/-- Template-literal conversion of a possibly-undefined value. -/
def jsDisplay : Option Json → String
  | none => "undefined"
  | some j => jsStringOf j

/-- A JS exception, carrying `error.message`. -/
structure JsError where
  message : String

/-- The call `v.join(sep)` where `v` is the result of a property access:
on an array it joins, on `undefined`/`null` it throws a `TypeError`
(property access on nothing), on any other value `join` is not a
function. -/
def joinCall : Option Json → String → Except JsError String
  | some (Json.arr elems), sep => Except.ok (jsJoinWith sep elems)
  | none, _ => Except.error ⟨"Cannot read properties of undefined (reading join)"⟩
  | some Json.null, _ => Except.error ⟨"Cannot read properties of null (reading join)"⟩
  | some _, _ => Except.error ⟨"data.agents_used.join is not a function"⟩

/-- The host configuration object `this.runtimeArgs`; each field may be
absent (`none`). -/
structure RuntimeArgs where
  CREWAI_API_URL : Option String
  RESEARCH_DEPTH : Option String

/-- JS `x || default` for a possibly-absent string: `undefined` and the
empty string are falsy and fall back to the default. -/
def jsOrDefault : Option String → String → String
  | some s, dflt => if s = "" then dflt else s
  | none, dflt => dflt

/-- `this.runtimeArgs?.CREWAI_API_URL || "http://crewai-service:8000"`. -/
def effectiveBaseUrl (runtimeArgs : Option RuntimeArgs) : String :=
  jsOrDefault (runtimeArgs.bind (·.CREWAI_API_URL)) "http://crewai-service:8000"

/-- `this.runtimeArgs?.RESEARCH_DEPTH || "medium"`. -/
def effectiveDepth (runtimeArgs : Option RuntimeArgs) : String :=
  jsOrDefault (runtimeArgs.bind (·.RESEARCH_DEPTH)) "medium"

/-- An HTTP response as the handler observes it: status code, the body
read as text by `response.text()`, and the outcome of
`response.json()` (a parsed value, or a parse-error message). -/
structure Response where
  status : Nat
  bodyText : String
  bodyJson : Except String Json

/-- Outcome of the `fetch` promise: a response, or a rejection
(timeout / connection failure) carrying the error message. -/
inductive FetchResult where
  | success (response : Response)
  | failure (message : String)

/-- Observable side effects of one invocation, in program order. -/
inductive Event where
  | introspect (message : String)
  | fetchRequest (url : String) (method : String) (contentType : String)
      (body : Json) (timeoutMs : Nat)

/-- `response.ok`: status in the inclusive range 200-299. -/
def responseOk (status : Nat) : Bool :=
  decide (200 ≤ status) && decide (status ≤ 299)

/-- The first introspect message of the handler. -/
def requestMessage (topic depth : String) : String :=
  "🔬 Sending research request to CrewAI crew: \"" ++ topic ++ "\" (depth: "
    ++ depth ++ ")"

/-- Introspect message on a non-ok HTTP status. -/
def remoteErrorIntrospect (status : Nat) : String :=
  "❌ CrewAI returned error: " ++ toString status

/-- Returned string on a non-ok HTTP status. -/
def remoteErrorReturn (status : Nat) (errBody : String) : String :=
  "CrewAI research failed (HTTP " ++ toString status ++ "): " ++ errBody

/-- Introspect message on a successful, parsed response. -/
def successIntrospect (duration : Option Json) (joined : String) : String :=
  "✅ Research complete! Took " ++ jsDisplay duration ++ "s using agents: " ++ joined

/-- Introspect message emitted by the `catch` block. -/
def catchIntrospect (message : String) : String :=
  "❌ Failed to reach CrewAI service: " ++ message

/-- String returned by the `catch` block. -/
def catchReturn (baseUrl message : String) : String :=
  "Error contacting CrewAI service at " ++ baseUrl ++ ": " ++ message
    ++ ". Make sure the crewai-service container is running and on the same Docker network."

/-- The `try` block of the handler: emits the announcement introspect and
the fetch request, then dispatches on the fetch outcome exactly as the
source does.  Returns the events emitted so far together with either the
value `return`ed or the exception thrown. -/
def tryBlock (topic depth baseUrl : String) (fetchResult : FetchResult) :
    List Event × Except JsError (Option Json) :=
  let requestEvents : List Event :=
    [Event.introspect (requestMessage topic depth),
     Event.fetchRequest (baseUrl ++ "/research") "POST" "application/json"
       (Json.obj [("topic", Json.str topic), ("depth", Json.str depth)]) 300000]
  match fetchResult with
  | FetchResult.failure message => (requestEvents, Except.error ⟨message⟩)
  | FetchResult.success response =>
    if !responseOk response.status then
      let errBody := response.bodyText
      (requestEvents ++ [Event.introspect (remoteErrorIntrospect response.status)],
       Except.ok (some (Json.str (remoteErrorReturn response.status errBody))))
    else
      match response.bodyJson with
      | Except.error parseMessage => (requestEvents, Except.error ⟨parseMessage⟩)
      | Except.ok data =>
        match joinCall (jsGet data "agents_used") ", " with
        | Except.error e => (requestEvents, Except.error e)
        | Except.ok joined =>
          (requestEvents
             ++ [Event.introspect
                  (successIntrospect (jsGet data "duration_seconds") joined)],
           Except.ok (jsGet data "result"))

/-- The exported handler: computes `baseUrl` and `depth` from
`runtimeArgs` with JS falsy defaults, runs the `try` block, and on an
exception runs the `catch` block (introspect, then return the
descriptive string).  First component is the returned JS value
(`Except.error` would be an exception escaping the handler); second is
the event trace. -/
def handler (topic : String) (runtimeArgs : Option RuntimeArgs)
    (fetchResult : FetchResult) : Except JsError (Option Json) × List Event :=
  let baseUrl := effectiveBaseUrl runtimeArgs
  let depth := effectiveDepth runtimeArgs
  match tryBlock topic depth baseUrl fetchResult with
  | (events, Except.ok value) => (Except.ok value, events)
  | (events, Except.error e) =>
    (Except.ok (some (Json.str (catchReturn baseUrl e.message))),
     events ++ [Event.introspect (catchIntrospect e.message)])

/-- `pat` occurs as a contiguous substring of `s`. -/
def strContains (s pat : String) : Prop :=
  List.IsInfix pat.data s.data

instance (s pat : String) : Decidable (strContains s pat) := by
  unfold strContains
  exact List.decidableInfix pat.data s.data

/-- The announcement introspect event, with the effective depth. -/
def announceEvent (topic : String) (runtimeArgs : Option RuntimeArgs) : Event :=
  Event.introspect (requestMessage topic (effectiveDepth runtimeArgs))

/-- The single outbound HTTP request event of an invocation. -/
def requestEvent (topic : String) (runtimeArgs : Option RuntimeArgs) : Event :=
  Event.fetchRequest (effectiveBaseUrl runtimeArgs ++ "/research") "POST" "application/json"
    (Json.obj [("topic", Json.str topic),
      ("depth", Json.str (effectiveDepth runtimeArgs))]) 300000

/-- Recognizer for outbound request events. -/
def isFetchRequest : Event → Bool
  | Event.fetchRequest _ _ _ _ _ => true
  | _ => false

theorem strContains_of_data (s pre pat suf : String)
    (h : s.data = pre.data ++ pat.data ++ suf.data) : strContains s pat :=
  ⟨pre.data, suf.data, h.symm⟩

theorem handler_failure_eq (topic : String) (ra : Option RuntimeArgs) (message : String) :
    handler topic ra (FetchResult.failure message) =
      (Except.ok (some (Json.str (catchReturn (effectiveBaseUrl ra) message))),
       [announceEvent topic ra, requestEvent topic ra,
        Event.introspect (catchIntrospect message)]) := rfl

theorem handler_remoteError_eq (topic : String) (ra : Option RuntimeArgs)
    (status : Nat) (bodyText : String) (bodyJson : Except String Json)
    (h : responseOk status = false) :
    handler topic ra (FetchResult.success ⟨status, bodyText, bodyJson⟩) =
      (Except.ok (some (Json.str (remoteErrorReturn status bodyText))),
       [announceEvent topic ra, requestEvent topic ra,
        Event.introspect (remoteErrorIntrospect status)]) := by
  simp [handler, tryBlock, announceEvent, requestEvent, h]

theorem handler_parseError_eq (topic : String) (ra : Option RuntimeArgs)
    (status : Nat) (bodyText parseMessage : String) (h : responseOk status = true) :
    handler topic ra (FetchResult.success ⟨status, bodyText, Except.error parseMessage⟩) =
      (Except.ok (some (Json.str (catchReturn (effectiveBaseUrl ra) parseMessage))),
       [announceEvent topic ra, requestEvent topic ra,
        Event.introspect (catchIntrospect parseMessage)]) := by
  simp [handler, tryBlock, announceEvent, requestEvent, h]

theorem handler_joinError_eq (topic : String) (ra : Option RuntimeArgs)
    (status : Nat) (bodyText : String) (data : Json) (e : JsError)
    (h : responseOk status = true)
    (hjoin : joinCall (jsGet data "agents_used") ", " = Except.error e) :
    handler topic ra (FetchResult.success ⟨status, bodyText, Except.ok data⟩) =
      (Except.ok (some (Json.str (catchReturn (effectiveBaseUrl ra) e.message))),
       [announceEvent topic ra, requestEvent topic ra,
        Event.introspect (catchIntrospect e.message)]) := by
  simp [handler, tryBlock, announceEvent, requestEvent, h, hjoin]

theorem handler_success_eq (topic : String) (ra : Option RuntimeArgs)
    (status : Nat) (bodyText : String) (data : Json) (joined : String)
    (h : responseOk status = true)
    (hjoin : joinCall (jsGet data "agents_used") ", " = Except.ok joined) :
    handler topic ra (FetchResult.success ⟨status, bodyText, Except.ok data⟩) =
      (Except.ok (jsGet data "result"),
       [announceEvent topic ra, requestEvent topic ra,
        Event.introspect (successIntrospect (jsGet data "duration_seconds") joined)]) := by
  simp [handler, tryBlock, announceEvent, requestEvent, h, hjoin]

/-- Every branch of the handler produces a trace of exactly three events:
the announcement introspect, the request, and one more introspect. -/
theorem handler_trace (topic : String) (ra : Option RuntimeArgs) (fr : FetchResult) :
    ∃ m, (handler topic ra fr).2
      = [announceEvent topic ra, requestEvent topic ra, Event.introspect m] := by
  cases fr with
  | failure message =>
    exact ⟨catchIntrospect message, by rw [handler_failure_eq]⟩
  | success r =>
    obtain ⟨status, bodyText, bodyJson⟩ := r
    cases h : responseOk status with
    | false =>
      exact ⟨remoteErrorIntrospect status,
        by rw [handler_remoteError_eq topic ra status bodyText bodyJson h]⟩
    | true =>
      cases bodyJson with
      | error parseMessage =>
        exact ⟨catchIntrospect parseMessage,
          by rw [handler_parseError_eq topic ra status bodyText parseMessage h]⟩
      | ok data =>
        cases hjoin : joinCall (jsGet data "agents_used") ", " with
        | error e =>
          exact ⟨catchIntrospect e.message,
            by rw [handler_joinError_eq topic ra status bodyText data e h hjoin]⟩
        | ok joined =>
          exact ⟨successIntrospect (jsGet data "duration_seconds") joined,
            by rw [handler_success_eq topic ra status bodyText data joined h hjoin]⟩

/-- Every invocation returns a value (the final match of the handler has
only `Except.ok` results: the `catch` converts every thrown error). -/
theorem handler_always_ok (topic : String) (ra : Option RuntimeArgs) (fr : FetchResult) :
    ∃ v, (handler topic ra fr).1 = Except.ok v := by
  have h : handler topic ra fr
      = match tryBlock topic (effectiveDepth ra) (effectiveBaseUrl ra) fr with
        | (events, Except.ok value) => (Except.ok value, events)
        | (events, Except.error e) =>
          (Except.ok (some (Json.str (catchReturn (effectiveBaseUrl ra) e.message))),
           events ++ [Event.introspect (catchIntrospect e.message)]) := rfl
  rw [h]
  rcases tryBlock topic (effectiveDepth ra) (effectiveBaseUrl ra) fr with ⟨events, e | v⟩
  · exact ⟨_, rfl⟩
  · exact ⟨_, rfl⟩

/-- C1 counterexample: on a 200 response whose body fails to parse as
JSON, the handler does not let the parse failure escape as an exception;
the `catch` block converts it into the returned description string. -/
theorem C1_parse_failure_caught_counterexample :
    (handler "quantum computing" none (FetchResult.success
        ⟨200, "not json", Except.error "Unexpected token"⟩)).1
      = Except.ok (some (Json.str "Error contacting CrewAI service at http://crewai-service:8000: Unexpected token. Make sure the crewai-service container is running and on the same Docker network.")) := rfl

/-- C1 (amended): every failure path is converted to a returned
description string: a network failure and a success-status response with
a malformed JSON body both return the catch-block string naming the base
URL, and a non-success status returns the remote-error string; no
exception crosses the handler boundary. -/
theorem C1_all_failures_become_strings (topic networkMessage bodyText parseMessage : String)
    (failBody : String) (failJson : Except String Json)
    (ra : Option RuntimeArgs) (status failStatus : Nat)
    (h2xx : responseOk status = true) (hbad : responseOk failStatus = false) :
    (handler topic ra (FetchResult.failure networkMessage)).1
      = Except.ok (some (Json.str (catchReturn (effectiveBaseUrl ra) networkMessage))) ∧
    (handler topic ra (FetchResult.success ⟨failStatus, failBody, failJson⟩)).1
      = Except.ok (some (Json.str (remoteErrorReturn failStatus failBody))) ∧
    (handler topic ra (FetchResult.success ⟨status, bodyText, Except.error parseMessage⟩)).1
      = Except.ok (some (Json.str (catchReturn (effectiveBaseUrl ra) parseMessage))) := by
  refine ⟨?_, ?_, ?_⟩
  · rw [handler_failure_eq]
  · rw [handler_remoteError_eq topic ra failStatus failBody failJson hbad]
  · rw [handler_parseError_eq topic ra status bodyText parseMessage h2xx]

/-- Witness for C1 (amended) at concrete inputs. -/
theorem C1_all_failures_become_strings_witness :
    (handler "t" none (FetchResult.failure "fetch failed")).1
      = Except.ok (some (Json.str (catchReturn (effectiveBaseUrl none) "fetch failed"))) ∧
    (handler "t" none (FetchResult.success ⟨500, "b", Except.error "p"⟩)).1
      = Except.ok (some (Json.str (remoteErrorReturn 500 "b"))) ∧
    (handler "t" none (FetchResult.success ⟨200, "b", Except.error "p"⟩)).1
      = Except.ok (some (Json.str (catchReturn (effectiveBaseUrl none) "p"))) :=
  C1_all_failures_become_strings "t" "fetch failed" "b" "p" "b" (Except.error "p") none
    200 500 (by decide) (by decide)

/-- The concrete success body of C2. -/
def successBody : Json :=
  Json.obj [("result", Json.str "ok"), ("duration_seconds", Json.num 12),
    ("agents_used", Json.arr [Json.str "a", Json.str "b"])]

/-- C2: on a 200 response with body
`{"result":"ok","duration_seconds":12,"agents_used":["a","b"]}` the
handler returns exactly the string `"ok"` (the `result` field), and an
introspect notification mentioning `12` and `"a, b"` is emitted. -/
theorem C2_success_returns_result (topic bodyText : String) (ra : Option RuntimeArgs) :
    (handler topic ra (FetchResult.success ⟨200, bodyText, Except.ok successBody⟩)).1
      = Except.ok (some (Json.str "ok")) ∧
    Event.introspect "✅ Research complete! Took 12s using agents: a, b"
      ∈ (handler topic ra (FetchResult.success ⟨200, bodyText, Except.ok successBody⟩)).2 ∧
    strContains "✅ Research complete! Took 12s using agents: a, b" "12" ∧
    strContains "✅ Research complete! Took 12s using agents: a, b" "a, b" := by
  have h := handler_success_eq topic ra 200 bodyText successBody "a, b" (by decide) (by rfl)
  refine ⟨?_, ?_, by decide, by decide⟩
  · rw [h]
    rfl
  · rw [h]
    exact List.Mem.tail _ (List.Mem.tail _ (List.Mem.head _))

/-- C3: on a 500 response with body `"boom"` the handler reads the body
as text and returns the remote-error string carrying both `"500"` and
`"boom"`, and the trace ends with the introspect notification reporting
the failure status (so it is emitted before the handler returns). -/
theorem C3_remote_error_500_boom (topic : String) (ra : Option RuntimeArgs)
    (bodyJson : Except String Json) :
    (handler topic ra (FetchResult.success ⟨500, "boom", bodyJson⟩)).1
      = Except.ok (some (Json.str "CrewAI research failed (HTTP 500): boom")) ∧
    (handler topic ra (FetchResult.success ⟨500, "boom", bodyJson⟩)).2
      = [announceEvent topic ra, requestEvent topic ra,
         Event.introspect "❌ CrewAI returned error: 500"] ∧
    strContains "CrewAI research failed (HTTP 500): boom" "500" ∧
    strContains "CrewAI research failed (HTTP 500): boom" "boom" := by
  have h := handler_remoteError_eq topic ra 500 "boom" bodyJson (by decide)
  refine ⟨?_, ?_, by decide, by decide⟩
  · rw [h]
    rfl
  · rw [h]
    rfl

/-- C4: on a timeout or an unreachable host (a rejected fetch), the
handler returns the catch-block string, which names the effective base
URL and carries the operational remediation hint. -/
theorem C4_transport_failure_names_base_url (topic message : String)
    (ra : Option RuntimeArgs) :
    (handler topic ra (FetchResult.failure message)).1
      = Except.ok (some (Json.str (catchReturn (effectiveBaseUrl ra) message))) ∧
    strContains (catchReturn (effectiveBaseUrl ra) message) (effectiveBaseUrl ra) ∧
    strContains (catchReturn (effectiveBaseUrl ra) message)
      ". Make sure the crewai-service container is running and on the same Docker network." := by
  refine ⟨by rw [handler_failure_eq], ?_, ?_⟩
  · exact strContains_of_data _ "Error contacting CrewAI service at " _
      (": " ++ message
        ++ ". Make sure the crewai-service container is running and on the same Docker network.")
      (by simp [catchReturn, String.data_append])
  · exact strContains_of_data _
      ("Error contacting CrewAI service at " ++ effectiveBaseUrl ra ++ ": " ++ message) _ ""
      (by simp [catchReturn, String.data_append])

/-- C5: for a non-empty topic and any depth configuration, the trace of
every invocation contains exactly one outbound request event, a POST to
`{baseUrl}/research` whose JSON body is the object with the `topic` and
the effective `depth`; no second request (retry) ever appears. -/
theorem C5_exactly_one_request (topic : String) (ra : Option RuntimeArgs)
    (fr : FetchResult) (_htopic : topic ≠ "") :
    List.filter isFetchRequest (handler topic ra fr).2
      = [Event.fetchRequest (effectiveBaseUrl ra ++ "/research") "POST" "application/json"
          (Json.obj [("topic", Json.str topic),
            ("depth", Json.str (effectiveDepth ra))]) 300000] := by
  obtain ⟨m, hm⟩ := handler_trace topic ra fr
  rw [hm]
  rfl

/-- Witness for C5 at a concrete invocation. -/
theorem C5_exactly_one_request_witness :
    List.filter isFetchRequest (handler "llms" none (FetchResult.failure "down")).2
      = [Event.fetchRequest (effectiveBaseUrl none ++ "/research") "POST" "application/json"
          (Json.obj [("topic", Json.str "llms"),
            ("depth", Json.str (effectiveDepth none))]) 300000] :=
  C5_exactly_one_request "llms" none (FetchResult.failure "down") (by decide)

/-- C6: when the configuration supplies no `RESEARCH_DEPTH`, the depth
sent in the request body is `"medium"`, and the request event with that
body is in the trace. -/
theorem C6_depth_defaults_to_medium (topic : String) (ra : Option RuntimeArgs)
    (fr : FetchResult) (h : ra.bind (·.RESEARCH_DEPTH) = none) :
    effectiveDepth ra = "medium" ∧
    Event.fetchRequest (effectiveBaseUrl ra ++ "/research") "POST" "application/json"
        (Json.obj [("topic", Json.str topic), ("depth", Json.str "medium")]) 300000
      ∈ (handler topic ra fr).2 := by
  have hd : effectiveDepth ra = "medium" := by
    unfold effectiveDepth
    rw [h]
    rfl
  refine ⟨hd, ?_⟩
  obtain ⟨m, hm⟩ := handler_trace topic ra fr
  rw [hm]
  have hreq : requestEvent topic ra
      = Event.fetchRequest (effectiveBaseUrl ra ++ "/research") "POST" "application/json"
          (Json.obj [("topic", Json.str topic), ("depth", Json.str "medium")]) 300000 := by
    rw [requestEvent, hd]
  rw [← hreq]
  exact List.Mem.tail _ (List.Mem.head _)

/-- Witness for C6 with the depth configuration omitted. -/
theorem C6_depth_defaults_to_medium_witness :
    effectiveDepth none = "medium" ∧
    Event.fetchRequest (effectiveBaseUrl none ++ "/research") "POST" "application/json"
        (Json.obj [("topic", Json.str "llms"), ("depth", Json.str "medium")]) 300000
      ∈ (handler "llms" none (FetchResult.failure "down")).2 :=
  C6_depth_defaults_to_medium "llms" none (FetchResult.failure "down") rfl

/-- A valid-JSON success body with no `agents_used` field. -/
def noAgentsBody : Json := Json.obj [("result", Json.str "ok")]

/-- The string the handler returned, when its result is a string. -/
def returnedString : Except JsError (Option Json) × List Event → Option String
  | (Except.ok (some (Json.str s)), _) => some s
  | _ => none

/-- C7 counterexample: on a 200 response whose valid JSON body lacks
`agents_used`, the handler does not return the result field `"ok"`; the
`join` call on the missing field throws, and the catch block returns the
error description string instead. -/
theorem C7_missing_agents_counterexample :
    (handler "t" none (FetchResult.success ⟨200, "raw", Except.ok noAgentsBody⟩)).1
      = Except.ok (some (Json.str "Error contacting CrewAI service at http://crewai-service:8000: Cannot read properties of undefined (reading join). Make sure the crewai-service container is running and on the same Docker network.")) ∧
    returnedString (handler "t" none (FetchResult.success ⟨200, "raw", Except.ok noAgentsBody⟩))
      ≠ some "ok" := by
  refine ⟨rfl, ?_⟩
  intro hcontra
  simp only [show returnedString (handler "t" none
      (FetchResult.success ⟨200, "raw", Except.ok noAgentsBody⟩))
      = some "Error contacting CrewAI service at http://crewai-service:8000: Cannot read properties of undefined (reading join). Make sure the crewai-service container is running and on the same Docker network." from rfl] at hcontra
  exact absurd (Option.some.inj hcontra) (by decide)

/-- C7 (amended): when `agents_used` is present but empty the handler
treats it as an empty sequence and returns the body's `result` field;
when `agents_used` is absent the handler instead returns the catch-block
error string naming the base URL. -/
theorem C7_empty_agents_returns_result (topic bodyText : String) (ra : Option RuntimeArgs)
    (data missing : Json)
    (hempty : jsGet data "agents_used" = some (Json.arr []))
    (hmissing : jsGet missing "agents_used" = none) :
    (handler topic ra (FetchResult.success ⟨200, bodyText, Except.ok data⟩)).1
      = Except.ok (jsGet data "result") ∧
    (handler topic ra (FetchResult.success ⟨200, bodyText, Except.ok missing⟩)).1
      = Except.ok (some (Json.str (catchReturn (effectiveBaseUrl ra)
          "Cannot read properties of undefined (reading join)"))) := by
  constructor
  · have hjoin : joinCall (jsGet data "agents_used") ", " = Except.ok "" := by
      rw [hempty]
      rfl
    rw [handler_success_eq topic ra 200 bodyText data "" (by decide) hjoin]
  · have hjoin : joinCall (jsGet missing "agents_used") ", "
        = Except.error ⟨"Cannot read properties of undefined (reading join)"⟩ := by
      rw [hmissing]
      rfl
    rw [handler_joinError_eq topic ra 200 bodyText missing
      ⟨"Cannot read properties of undefined (reading join)"⟩ (by decide) hjoin]

/-- Witness for C7 (amended) at concrete bodies. -/
theorem C7_empty_agents_returns_result_witness :
    (handler "t" none (FetchResult.success ⟨200, "raw",
        Except.ok (Json.obj [("result", Json.str "r"), ("agents_used", Json.arr [])])⟩)).1
      = Except.ok (jsGet (Json.obj [("result", Json.str "r"),
          ("agents_used", Json.arr [])]) "result") ∧
    (handler "t" none (FetchResult.success ⟨200, "raw", Except.ok noAgentsBody⟩)).1
      = Except.ok (some (Json.str (catchReturn (effectiveBaseUrl none)
          "Cannot read properties of undefined (reading join)"))) :=
  C7_empty_agents_returns_result "t" "raw" none
    (Json.obj [("result", Json.str "r"), ("agents_used", Json.arr [])]) noAgentsBody rfl rfl

/-- C8: in every invocation the trace starts with the announcement
introspect message — which contains the topic and the effective depth —
followed immediately by the outbound request event: the announcement is
emitted before the request is issued. -/
theorem C8_announce_precedes_request (topic : String) (ra : Option RuntimeArgs)
    (fr : FetchResult) :
    (∃ rest, (handler topic ra fr).2
        = Event.introspect (requestMessage topic (effectiveDepth ra))
          :: requestEvent topic ra :: rest) ∧
    strContains (requestMessage topic (effectiveDepth ra)) topic ∧
    strContains (requestMessage topic (effectiveDepth ra)) (effectiveDepth ra) := by
  obtain ⟨m, hm⟩ := handler_trace topic ra fr
  refine ⟨⟨[Event.introspect m], by rw [hm]; rfl⟩, ?_, ?_⟩
  · exact strContains_of_data _ "🔬 Sending research request to CrewAI crew: \"" _
      ("\" (depth: " ++ effectiveDepth ra ++ ")")
      (by simp [requestMessage, String.data_append])
  · exact strContains_of_data _
      ("🔬 Sending research request to CrewAI crew: \"" ++ topic ++ "\" (depth: ") _ ")"
      (by simp [requestMessage, String.data_append])

/-- C9: with the introspect callback modelled as never throwing, every
invocation returns a value (`Except.ok`) whatever the fetch outcome; in
particular a 200 response with a malformed JSON body, and a 200 response
whose body lacks `agents_used`, both return the catch-block string, which
names the base URL. -/
theorem C9_handler_never_throws (topic bodyText parseMessage : String)
    (ra : Option RuntimeArgs) (fr : FetchResult) :
    (∃ v, (handler topic ra fr).1 = Except.ok v) ∧
    (handler topic ra (FetchResult.success ⟨200, bodyText, Except.error parseMessage⟩)).1
      = Except.ok (some (Json.str (catchReturn (effectiveBaseUrl ra) parseMessage))) ∧
    (handler topic ra (FetchResult.success ⟨200, bodyText, Except.ok noAgentsBody⟩)).1
      = Except.ok (some (Json.str (catchReturn (effectiveBaseUrl ra)
          "Cannot read properties of undefined (reading join)"))) ∧
    strContains (catchReturn (effectiveBaseUrl ra) parseMessage) (effectiveBaseUrl ra) := by
  refine ⟨handler_always_ok topic ra fr, ?_, ?_, ?_⟩
  · rw [handler_parseError_eq topic ra 200 bodyText parseMessage (by decide)]
  · rw [handler_joinError_eq topic ra 200 bodyText noAgentsBody
      ⟨"Cannot read properties of undefined (reading join)"⟩ (by decide) rfl]
  · exact strContains_of_data _ "Error contacting CrewAI service at " _
      (": " ++ parseMessage
        ++ ". Make sure the crewai-service container is running and on the same Docker network.")
      (by simp [catchReturn, String.data_append])

/-- C10: configuration values that are present but falsy (the empty
string) behave exactly like absent ones: with both fields set to `""`
the invocation is indistinguishable from one with no configuration, the
base URL used is the default, and the depth sent is `"medium"`. -/
theorem C10_falsy_config_like_absent (topic : String) (fr : FetchResult) :
    handler topic (some ⟨some "", some ""⟩) fr = handler topic none fr ∧
    effectiveBaseUrl (some ⟨some "", some ""⟩) = "http://crewai-service:8000" ∧
    effectiveDepth (some ⟨some "", some ""⟩) = "medium" := by
  exact ⟨rfl, rfl, rfl⟩
